import Mathlib

/-!
Verification of the LifeLink order-lifecycle engine (app.py) against its
natural-language specification.  The SQLite-backed Flask handlers are embedded
shallowly: table rows become structures, the database becomes lists of rows,
SQL reads become list lookups, SQL updates become maps over the row lists, and
CURRENT_TIMESTAMP becomes an explicit `now : Nat` parameter.  Handlers that can
fail return `Except ErrResp`, recording the response text and HTTP status the
route would send.
-/

namespace LifeLink

/-- A row of the hospitals table. -/
structure Hospital where
  id : Nat
  name : String
  city : String
  state : String
  email : String
deriving DecidableEq

/-- A row of the organ_listings table.  The float-valued weight_kg column is
carried as an opaque numeric field: the code never computes with it. -/
structure OrganListing where
  id : Nat
  hospital_id : Nat
  hospital_name : String
  organ_type : String
  blood_type : String
  age : Nat
  weight_kg : Nat
  priority_status : String
  availability_status : String
  city : String
  state : String
  created_at : Nat
deriving DecidableEq

/-- A row of the transport_requests table.  created_at and updated_at default
to the insertion time, as the schema stamps them with CURRENT_TIMESTAMP. -/
structure TransportRequest where
  id : Nat
  listing_id : Option Nat
  hospital : String
  organ_type : String
  origin : String
  destination : String
  contact_phone : String
  notes : String
  priority_status : String
  status : String
  driver_id : Option Nat
  created_at : Nat
  updated_at : Nat
deriving DecidableEq

/-- The persistent store: the tables the order-lifecycle engine touches. -/
structure DB where
  hospitals : List Hospital
  organ_listings : List OrganListing
  transport_requests : List TransportRequest
deriving DecidableEq

/-- An error response: the plain-text body and the HTTP status code the Flask
route returns. -/
structure ErrResp where
  msg : String
  http : Nat
deriving DecidableEq

/-- SQL UPDATE transport_requests SET ... WHERE id = order_id: every row whose
id column equals order_id is rewritten by f. -/
def sqlUpdateRequests (rows : List TransportRequest) (order_id : Nat)
    (f : TransportRequest → TransportRequest) : List TransportRequest :=
  rows.map fun tr => if tr.id = order_id then f tr else tr

/-- SQL UPDATE organ_listings SET ... WHERE id = listing_id. -/
def sqlUpdateListings (rows : List OrganListing) (listing_id : Nat)
    (f : OrganListing → OrganListing) : List OrganListing :=
  rows.map fun l => if l.id = listing_id then f l else l

/-- sqlite lastrowid for an insert into transport_requests: one past the
largest id in the table. -/
def maxRequestId (rows : List TransportRequest) : Nat :=
  rows.foldr (fun tr m => max tr.id m) 0

/-- The WHERE clause of driver_has_active_order, as a row predicate:
driver_id = d AND status IN ('Assigned','En-route'). -/
def isActiveFor (d : Nat) (tr : TransportRequest) : Bool :=
  tr.driver_id == some d && (tr.status == "Assigned" || tr.status == "En-route")

/-- app.py driver_has_active_order: COUNT of active rows for the driver is
positive. -/
def driver_has_active_order (db : DB) (driver_id : Nat) : Bool :=
  decide (0 < db.transport_requests.countP (isActiveFor driver_id))

/-- The SET clause of the claim UPDATE: driver_id = d, status = Assigned,
updated_at = now. -/
def claimUpd (d now : Nat) (tr : TransportRequest) : TransportRequest :=
  { tr with driver_id := some d, status := "Assigned", updated_at := now }

/-- The SET clause of the plain status UPDATE: status = ns,
updated_at = now. -/
def statusUpd (ns : String) (now : Nat) (tr : TransportRequest) : TransportRequest :=
  { tr with status := ns, updated_at := now }

/-- The SET clause of the reversion UPDATE: status = ns, driver_id = NULL,
updated_at = now. -/
def revertUpd (ns : String) (now : Nat) (tr : TransportRequest) : TransportRequest :=
  { tr with status := ns, driver_id := none, updated_at := now }

/-- app.py driver_claim (POST /driver-claim/order_id).  driver_id = 0 stands
for a missing or falsy form value, which Python rejects with
"Driver required".  On success the handler redirects to the driver portal for
the claiming driver; we return that driver id alongside the new store. -/
def driver_claim (db : DB) (now : Nat) (order_id driver_id : Nat) :
    Except ErrResp (DB × Nat) :=
  if driver_id = 0 then .error ⟨"Driver required", 400⟩
  else if driver_has_active_order db driver_id then
    .error ⟨"Driver already has an active order", 400⟩
  else
    match db.transport_requests.find? (fun tr => tr.id == order_id) with
    | none => .error ⟨"Order is no longer available", 400⟩
    | some order =>
      if order.status = "Requested" then
        .ok ({ db with transport_requests :=
          sqlUpdateRequests db.transport_requests order_id (claimUpd driver_id now) }, driver_id)
      else .error ⟨"Order is no longer available", 400⟩

/-- The allowed_statuses set of driver_update_status. -/
def allowed_statuses : List String := ["Requested", "Assigned", "En-route", "Delivered"]

/-- app.py driver_update_status (POST /driver-update-status/order_id).
new_status = "" stands for a missing form value.  The handler never reads the
claimed driver beyond the presence check and the redirect target. -/
def driver_update_status (db : DB) (now : Nat) (order_id driver_id : Nat)
    (new_status : String) : Except ErrResp (DB × Nat) :=
  if driver_id = 0 ∨ new_status = "" then
    .error ⟨"Driver and status are required", 400⟩
  else
    match db.transport_requests.find? (fun tr => tr.id == order_id) with
    | none => .error ⟨"Order not found", 404⟩
    | some order =>
      if order.status = "Delivered" then
        .error ⟨"Delivered orders cannot be modified", 400⟩
      else if new_status ∉ allowed_statuses then
        .error ⟨"Invalid status", 400⟩
      else if new_status = "Requested" then
        .ok ({ db with transport_requests :=
          sqlUpdateRequests db.transport_requests order_id (revertUpd new_status now) }, driver_id)
      else
        .ok ({ db with transport_requests :=
          sqlUpdateRequests db.transport_requests order_id (statusUpd new_status now) }, driver_id)

/-- app.py request_transport, POST branch (POST /request-transport/listing_id).
hospital_id = none stands for a missing form value.  The unavailable branch
renders a dedicated template with HTTP 400; we record it as an error
response. -/
def request_transport (db : DB) (now : Nat) (listing_id : Nat)
    (hospital_id : Option Nat) (destination contact_phone notes : String) :
    Except ErrResp (DB × Nat) :=
  match db.organ_listings.find? (fun l => l.id == listing_id) with
  | none => .error ⟨"Listing not found", 404⟩
  | some listing =>
    if listing.availability_status ≠ "Available" then
      .error ⟨"Listing is unavailable", 400⟩
    else
      match hospital_id with
      | none => .error ⟨"Hospital is required", 400⟩
      | some hid =>
        match db.hospitals.find? (fun h => h.id == hid) with
        | none => .error ⟨"Selected hospital not found", 400⟩
        | some hospital_row =>
          if destination.trim = "" ∨ contact_phone.trim = "" then
            .error ⟨"Delivery address and contact phone are required", 400⟩
          else
            let origin := listing.hospital_name ++ " (" ++ listing.city ++
              ", " ++ listing.state ++ ")"
            let oid := maxRequestId db.transport_requests + 1
            .ok ({ db with
              transport_requests := db.transport_requests ++
                [{ id := oid, listing_id := some listing.id,
                   hospital := hospital_row.name,
                   organ_type := listing.organ_type, origin := origin,
                   destination := destination.trim,
                   contact_phone := contact_phone.trim,
                   notes := notes.trim,
                   priority_status := listing.priority_status,
                   status := "Requested", driver_id := none,
                   created_at := now, updated_at := now }],
              organ_listings := sqlUpdateListings db.organ_listings listing.id
                fun l => { l with availability_status := "Unavailable" } }, oid)

/-- app.py emergency_transport, POST branch: an ad-hoc request with no listing,
priority forced to Emergency, status Requested, no driver. -/
def emergency_transport (db : DB) (now : Nat)
    (hospital organ_type origin destination contact_phone notes : String) :
    DB × Nat :=
  let oid := maxRequestId db.transport_requests + 1
  ({ db with transport_requests := db.transport_requests ++
      [{ id := oid, listing_id := none, hospital := hospital,
         organ_type := organ_type, origin := origin,
         destination := destination, contact_phone := contact_phone,
         notes := notes, priority_status := "Emergency",
         status := "Requested", driver_id := none,
         created_at := now, updated_at := now }] }, oid)

/-- The priority CASE expression of the catalog view (GET /organ-listings):
Emergency 1, Critical 2, Urgent 3, else 4. -/
def catalogRank (p : String) : Nat :=
  if p = "Emergency" then 1 else if p = "Critical" then 2
  else if p = "Urgent" then 3 else 4

/-- The priority CASE expression of the driver available-orders view
(GET /driver-portal): Emergency 1, Urgent 2, Critical 3, else 4. -/
def driverRank (p : String) : Nat :=
  if p = "Emergency" then 1 else if p = "Urgent" then 2
  else if p = "Critical" then 3 else 4

/-- The catalog ORDER BY: priority rank ascending, then created_at
descending (newest first). -/
def catalogLe (a b : OrganListing) : Prop :=
  catalogRank a.priority_status < catalogRank b.priority_status ∨
    (catalogRank a.priority_status = catalogRank b.priority_status ∧
      b.created_at ≤ a.created_at)

/-- The available-orders ORDER BY: priority rank ascending, then created_at
ascending (oldest first). -/
def availLe (a b : TransportRequest) : Prop :=
  driverRank a.priority_status < driverRank b.priority_status ∨
    (driverRank a.priority_status = driverRank b.priority_status ∧
      a.created_at ≤ b.created_at)

instance : DecidableRel catalogLe := fun a b => by
  unfold catalogLe; infer_instance

instance : DecidableRel availLe := fun a b => by
  unfold availLe; infer_instance

instance : IsTotal OrganListing catalogLe :=
  ⟨by intro a b; unfold catalogLe; omega⟩

instance : IsTrans OrganListing catalogLe :=
  ⟨by intro a b c hab hbc; unfold catalogLe at *; omega⟩

instance : IsTotal TransportRequest availLe :=
  ⟨by intro a b; unfold availLe; omega⟩

instance : IsTrans TransportRequest availLe :=
  ⟨by intro a b c hab hbc; unfold availLe at *; omega⟩

/-- lower(column) LIKE a %-wrapped pattern: the pattern occurs as a substring
of the lowercased column. -/
def likeContains (field q : String) : Bool :=
  decide (List.IsInfix q.toList field.toLower.toList)

/-- The WHERE clause of the catalog view, for the query already stripped and
lowercased (as the route does), the organ-type filter and the availability
filter.  An empty or "All" type filter and an availability filter other than
Available and Unavailable select everything. -/
def listingMatches (q typ availability : String) (l : OrganListing) : Bool :=
  (typ == "" || typ == "All" || l.organ_type.toLower == typ.toLower) &&
  (if availability == "Available" then l.availability_status == "Available"
   else if availability == "Unavailable" then
     l.availability_status == "Unavailable"
   else true) &&
  (q == "" || likeContains l.organ_type q || likeContains l.blood_type q ||
    likeContains l.hospital_name q || likeContains l.city q ||
    likeContains l.state q)

/-- app.py organ_listings (GET /organ-listings): filter, then ORDER BY the
catalog rank and created_at DESC. -/
def organ_listings_view (db : DB) (q typ availability : String) :
    List OrganListing :=
  List.insertionSort catalogLe
    (db.organ_listings.filter (listingMatches (q.trim.toLower) typ availability))

/-- The available_orders query of app.py driver_portal: status Requested and
driver_id NULL, ORDER BY the driver rank and created_at ASC. -/
def available_orders (db : DB) : List TransportRequest :=
  List.insertionSort availLe
    (db.transport_requests.filter
      (fun tr => tr.status == "Requested" && tr.driver_id.isNone))

/-- One request against the lifecycle engine, named as in the spec. -/
inductive Op where
  | createRequest (listing_id : Nat) (hospital_id : Option Nat)
      (destination contact_phone notes : String)
  | createEmergencyRequest
      (hospital organ_type origin destination contact_phone notes : String)
  | claimOrder (order_id driver_id : Nat)
  | updateStatus (order_id driver_id : Nat) (new_status : String)

/-- The store a fallible handler leaves behind: on an error response nothing
was written, so the store is unchanged. -/
def stateOf (db : DB) : Except ErrResp (DB × Nat) → DB
  | .ok (db2, _) => db2
  | .error _ => db

/-- Run one operation at time now, keeping only the store. -/
def runOp (db : DB) (now : Nat) : Op → DB
  | .createRequest l h d c n => stateOf db (request_transport db now l h d c n)
  | .createEmergencyRequest h o og d c n =>
      (emergency_transport db now h o og d c n).1
  | .claimOrder oid did => stateOf db (driver_claim db now oid did)
  | .updateStatus oid did ns => stateOf db (driver_update_status db now oid did ns)

/-- Run a sequence of timestamped operations. -/
def runOps (db : DB) : List (Nat × Op) → DB
  | [] => db
  | (now, op) :: rest => runOps (runOp db now op) rest

/-- The number of active (Assigned or En-route) requests held by driver d. -/
def activeCount (db : DB) (d : Nat) : Nat :=
  db.transport_requests.countP (isActiveFor d)

/-- The single-active-order invariant: every driver holds at most one active
request. -/
def AtMostOneActive (db : DB) : Prop := ∀ d, activeCount db d ≤ 1

/-- Every row holding a driver has been claimed at some point: its status is
Assigned, En-route or Delivered (equivalently, Requested rows carry no
driver). -/
def StartedRows (rows : List TransportRequest) : Prop :=
  ∀ tr ∈ rows, tr.driver_id ≠ none →
    tr.status = "Assigned" ∨ tr.status = "En-route" ∨ tr.status = "Delivered"

/-- The StartedRows property of the whole store. -/
def DriverImpliesStarted (db : DB) : Prop :=
  StartedRows db.transport_requests

/-- The id column of transport_requests is a primary key: no two rows share
an id. -/
def UniqueRequestIds (db : DB) : Prop :=
  (db.transport_requests.map (fun tr => tr.id)).Nodup

/-- The biconditional form of the driver-assignment invariant claimed by the
spec: a row carries a driver exactly when it is Assigned or En-route. -/
def DriverIffActive (db : DB) : Prop :=
  ∀ tr ∈ db.transport_requests,
    (tr.driver_id ≠ none ↔ (tr.status = "Assigned" ∨ tr.status = "En-route"))

/-- The conjunction of the structural key property and the two driver
invariants that the operations preserve together. -/
def Inv (db : DB) : Prop :=
  UniqueRequestIds db ∧ DriverImpliesStarted db ∧ AtMostOneActive db

/-! ### Concrete stores used to exercise the theorems -/

/-- A freshly created request: status Requested, no driver. -/
def reqRequested : TransportRequest :=
  { id := 1, listing_id := none, hospital := "General", organ_type := "Kidney",
    origin := "A", destination := "B", contact_phone := "555", notes := "",
    priority_status := "Urgent", status := "Requested", driver_id := none,
    created_at := 0, updated_at := 0 }

/-- The empty store. -/
def dbEmpty : DB := { hospitals := [], organ_listings := [], transport_requests := [] }

/-- A store holding one Requested, unassigned order. -/
def dbReq : DB :=
  { hospitals := [], organ_listings := [], transport_requests := [reqRequested] }

/-- A store holding one En-route order held by driver 3. -/
def dbEnRoute : DB :=
  { hospitals := [], organ_listings := [],
    transport_requests := [{ reqRequested with status := "En-route", driver_id := some 3 }] }

/-- The Delivered row of dbDelivered. -/
def reqDelivered4 : TransportRequest :=
  { reqRequested with status := "Delivered", driver_id := some 4 }

/-- A store holding one Delivered order that was carried by driver 4. -/
def dbDelivered : DB :=
  { hospitals := [], organ_listings := [], transport_requests := [reqDelivered4] }

/-- A store where driver 7 holds one active order and one Requested row
anomalously still carries driver 7: every driver holds at most one active
order here, yet the Requested row is one UpdateStatus away from a second. -/
def dbC2a : DB :=
  { hospitals := [], organ_listings := [],
    transport_requests :=
      [{ reqRequested with driver_id := some 7 },
       { reqRequested with id := 2, status := "Assigned", driver_id := some 7 }] }

/-- A store where two rows share id 1 (the primary key is violated): driver 5
holds one active order, and one UPDATE touches both rows at once. -/
def dbC2b : DB :=
  { hospitals := [], organ_listings := [],
    transport_requests :=
      [{ reqRequested with status := "Assigned", driver_id := some 5 },
       { reqRequested with status := "Delivered", driver_id := some 5 }] }

/-- An Available listing. -/
def listingAvail : OrganListing :=
  { id := 1, hospital_id := 1, hospital_name := "Mercy", organ_type := "Kidney",
    blood_type := "O+", age := 30, weight_kg := 70,
    priority_status := "Critical", availability_status := "Available",
    city := "Dallas", state := "TX", created_at := 0 }

/-- An Unavailable listing. -/
def listingUnavail : OrganListing :=
  { listingAvail with id := 2, availability_status := "Unavailable" }

/-- A requesting hospital. -/
def hospital2 : Hospital :=
  { id := 2, name := "St Luke", city := "Austin", state := "TX", email := "ops@stluke.org" }

/-- A store with one Available listing and no hospitals. -/
def dbListingOnly : DB :=
  { hospitals := [], organ_listings := [listingAvail], transport_requests := [] }

/-- A store with one Unavailable listing and a hospital. -/
def dbLU : DB :=
  { hospitals := [hospital2], organ_listings := [listingUnavail],
    transport_requests := [] }

/-- A store with one Available listing and a hospital. -/
def dbLH : DB :=
  { hospitals := [hospital2], organ_listings := [listingAvail],
    transport_requests := [] }

/-! ### Basic facts about the embedded SQL fragments -/

theorem isActiveFor_iff {d : Nat} {tr : TransportRequest} :
    isActiveFor d tr = true ↔
      tr.driver_id = some d ∧ (tr.status = "Assigned" ∨ tr.status = "En-route") := by
  simp [isActiveFor]

theorem driver_has_active_order_iff (db : DB) (d : Nat) :
    driver_has_active_order db d = true ↔
      ∃ tr ∈ db.transport_requests, tr.driver_id = some d ∧
        (tr.status = "Assigned" ∨ tr.status = "En-route") := by
  unfold driver_has_active_order
  rw [decide_eq_true_iff, List.countP_pos_iff]
  constructor
  · rintro ⟨tr, htr, hp⟩
    exact ⟨tr, htr, isActiveFor_iff.mp hp⟩
  · rintro ⟨tr, htr, hp⟩
    exact ⟨tr, htr, isActiveFor_iff.mpr hp⟩

theorem driver_has_active_order_eq_false (db : DB) (d : Nat) :
    driver_has_active_order db d = false ↔ activeCount db d = 0 := by
  unfold driver_has_active_order activeCount
  rcases Nat.eq_zero_or_pos (db.transport_requests.countP (isActiveFor d)) with h | h
  · simp [h]
  · simp [h, Nat.pos_iff_ne_zero.mp h]

theorem sqlUpdateRequests_length (rows : List TransportRequest) (oid : Nat)
    (f : TransportRequest → TransportRequest) :
    (sqlUpdateRequests rows oid f).length = rows.length := by
  unfold sqlUpdateRequests; exact List.length_map _ _

theorem sqlUpdateRequests_map_id (rows : List TransportRequest) (oid : Nat)
    (f : TransportRequest → TransportRequest) (hf : ∀ tr, (f tr).id = tr.id) :
    (sqlUpdateRequests rows oid f).map (fun tr => tr.id) =
      rows.map (fun tr => tr.id) := by
  unfold sqlUpdateRequests
  rw [List.map_map]
  apply List.map_congr_left
  intro tr _
  by_cases h : tr.id = oid <;> simp [h, hf]

theorem countP_id_le_one {rows : List TransportRequest}
    (h : (rows.map (fun tr => tr.id)).Nodup) (oid : Nat) :
    rows.countP (fun tr => tr.id == oid) ≤ 1 := by
  have h1 := List.nodup_iff_count_le_one.mp h oid
  rw [List.count_eq_countP, List.countP_map] at h1
  simpa [Function.comp] using h1

theorem id_le_maxRequestId {rows : List TransportRequest}
    {tr : TransportRequest} (h : tr ∈ rows) : tr.id ≤ maxRequestId rows := by
  induction rows with
  | nil => cases h
  | cons a l ih =>
    rcases List.mem_cons.mp h with rfl | h
    · exact Nat.le_max_left _ _
    · exact Nat.le_trans (ih h) (Nat.le_max_right _ _)

theorem eq_of_same_id {rows : List TransportRequest}
    (h : (rows.map (fun tr => tr.id)).Nodup) {a b : TransportRequest}
    (ha : a ∈ rows) (hb : b ∈ rows) (hid : a.id = b.id) : a = b :=
  List.inj_on_of_nodup_map h ha hb hid

/-! ### Preservation of StartedRows -/

theorem startedRows_claim {rows : List TransportRequest} (oid d now : Nat)
    (h : StartedRows rows) :
    StartedRows (sqlUpdateRequests rows oid (claimUpd d now)) := by
  intro tr htr hdr
  unfold sqlUpdateRequests at htr
  rcases List.mem_map.mp htr with ⟨tr0, htr0, rfl⟩
  by_cases hid : tr0.id = oid
  · simp [hid, claimUpd]
  · rw [if_neg hid] at hdr ⊢
    exact h tr0 htr0 hdr

theorem startedRows_status {rows : List TransportRequest} (oid now : Nat)
    {ns : String} (h : StartedRows rows)
    (hns : ns = "Assigned" ∨ ns = "En-route" ∨ ns = "Delivered") :
    StartedRows (sqlUpdateRequests rows oid (statusUpd ns now)) := by
  intro tr htr hdr
  unfold sqlUpdateRequests at htr
  rcases List.mem_map.mp htr with ⟨tr0, htr0, rfl⟩
  by_cases hid : tr0.id = oid
  · simpa [hid, statusUpd] using hns
  · rw [if_neg hid] at hdr ⊢
    exact h tr0 htr0 hdr

theorem startedRows_requested {rows : List TransportRequest} (oid now : Nat)
    {ns : String} (h : StartedRows rows) :
    StartedRows (sqlUpdateRequests rows oid (revertUpd ns now)) := by
  intro tr htr hdr
  unfold sqlUpdateRequests at htr
  rcases List.mem_map.mp htr with ⟨tr0, htr0, rfl⟩
  by_cases hid : tr0.id = oid
  · simp [hid, revertUpd] at hdr
  · rw [if_neg hid] at hdr ⊢
    exact h tr0 htr0 hdr

theorem startedRows_append {rows : List TransportRequest}
    {tr : TransportRequest} (h : StartedRows rows) (ht : tr.driver_id = none) :
    StartedRows (rows ++ [tr]) := by
  intro x hx hdr
  rcases List.mem_append.mp hx with hx | hx
  · exact h x hx hdr
  · rcases List.mem_singleton.mp hx with rfl
    exact absurd ht hdr

/-! ### Preservation of UniqueRequestIds -/

theorem nodupIds_append_fresh {rows : List TransportRequest}
    (h : (rows.map (fun tr => tr.id)).Nodup) {tr : TransportRequest}
    (htr : tr.id = maxRequestId rows + 1) :
    ((rows ++ [tr]).map (fun x => x.id)).Nodup := by
  rw [List.map_append]
  rw [List.nodup_append]
  refine ⟨h, List.nodup_singleton _, ?_⟩
  intro x hx hx2
  rcases List.mem_map.mp hx with ⟨tr0, htr0, rfl⟩
  rcases List.mem_singleton.mp (by simpa using hx2) with h2
  have := id_le_maxRequestId htr0
  omega

/-! ### Bounds on activeCount -/

theorem isActiveFor_claimUpd (e d now : Nat) (tr : TransportRequest) :
    isActiveFor e (claimUpd d now tr) = (d == e) := by
  by_cases h : d = e <;> simp [isActiveFor, claimUpd, h]

theorem activeCount_claim_le {rows : List TransportRequest} (oid d now : Nat)
    (hnod : (rows.map (fun tr => tr.id)).Nodup)
    (hone : ∀ e, rows.countP (isActiveFor e) ≤ 1)
    (hno : rows.countP (isActiveFor d) = 0) (e : Nat) :
    (sqlUpdateRequests rows oid (claimUpd d now)).countP (isActiveFor e) ≤ 1 := by
  unfold sqlUpdateRequests
  rw [List.countP_map]
  by_cases hed : e = d
  · subst hed
    calc rows.countP _ ≤ rows.countP (fun tr => tr.id == oid) := by
          apply List.countP_mono_left
          intro tr htr hp
          by_cases hid : tr.id = oid
          · simpa using hid
          · simp only [Function.comp_apply, if_neg hid] at hp
            exact absurd hp (by
              have := List.countP_eq_zero.mp hno tr htr
              simpa using this)
      _ ≤ 1 := countP_id_le_one hnod oid
  · calc rows.countP _ ≤ rows.countP (isActiveFor e) := by
          apply List.countP_mono_left
          intro tr htr hp
          by_cases hid : tr.id = oid
          · simp only [Function.comp_apply, if_pos hid,
              isActiveFor_claimUpd] at hp
            exact absurd (by simpa using hp) (fun h : d = e => hed h.symm)
          · simpa [Function.comp_apply, if_neg hid] using hp
      _ ≤ 1 := hone e

theorem activeCount_status_le {rows : List TransportRequest} (oid now : Nat)
    {ns : String} {order : TransportRequest}
    (hnod : (rows.map (fun tr => tr.id)).Nodup)
    (hst : StartedRows rows)
    (hone : ∀ e, rows.countP (isActiveFor e) ≤ 1)
    (hfind : rows.find? (fun tr => tr.id == oid) = some order)
    (hnd : ¬ order.status = "Delivered") (e : Nat) :
    (sqlUpdateRequests rows oid (statusUpd ns now)).countP (isActiveFor e) ≤ 1 := by
  unfold sqlUpdateRequests
  rw [List.countP_map]
  calc rows.countP _ ≤ rows.countP (isActiveFor e) := by
        apply List.countP_mono_left
        intro tr htr hp
        by_cases hid : tr.id = oid
        · simp only [Function.comp_apply, if_pos hid] at hp
          rcases isActiveFor_iff.mp hp with ⟨hdr, _⟩
          have hdr2 : tr.driver_id = some e := hdr
          have htro : tr = order := by
            apply eq_of_same_id hnod htr (List.mem_of_find?_eq_some hfind)
            have := List.find?_some hfind
            simp only [beq_iff_eq] at this
            omega
          have hstat := hst tr htr (by simp [hdr2])
          apply isActiveFor_iff.mpr
          refine ⟨hdr2, ?_⟩
          rcases hstat with h | h | h
          · exact Or.inl h
          · exact Or.inr h
          · exact absurd (htro ▸ h) (by simpa using hnd)
        · simpa [Function.comp_apply, if_neg hid] using hp
    _ ≤ 1 := hone e

theorem activeCount_requested_le {rows : List TransportRequest} (oid now : Nat)
    {ns : String} (hone : ∀ e, rows.countP (isActiveFor e) ≤ 1) (e : Nat) :
    (sqlUpdateRequests rows oid (revertUpd ns now)).countP (isActiveFor e) ≤ 1 := by
  unfold sqlUpdateRequests
  rw [List.countP_map]
  calc rows.countP _ ≤ rows.countP (isActiveFor e) := by
        apply List.countP_mono_left
        intro tr htr hp
        by_cases hid : tr.id = oid
        · simp [Function.comp_apply, if_pos hid, isActiveFor, revertUpd] at hp
        · simpa [Function.comp_apply, if_neg hid] using hp
    _ ≤ 1 := hone e

theorem activeCount_append_le {rows : List TransportRequest}
    {tr : TransportRequest} (hone : ∀ e, rows.countP (isActiveFor e) ≤ 1)
    (ht : tr.driver_id = none) (e : Nat) :
    (rows ++ [tr]).countP (isActiveFor e) ≤ 1 := by
  rw [List.countP_append]
  have h1 := hone e
  have h2 : List.countP (isActiveFor e) [tr] = 0 := by
    simp [isActiveFor, ht]
  omega

/-! ### Preservation across one operation and across sequences -/

theorem startedRows_runOp (db : DB) (now : Nat) (op : Op)
    (h : DriverImpliesStarted db) : DriverImpliesStarted (runOp db now op) := by
  cases op with
  | createRequest l hid d c n =>
    show DriverImpliesStarted (stateOf db (request_transport db now l hid d c n))
    unfold request_transport
    split
    · exact h
    next listing heq =>
      split
      · exact h
      next hA =>
        split
        · exact h
        next hh =>
          split
          · exact h
          next hosp heq2 =>
            split
            · exact h
            next hde => exact startedRows_append h rfl
  | createEmergencyRequest hsp o og d c n =>
    exact startedRows_append h rfl
  | claimOrder oid did =>
    show DriverImpliesStarted (stateOf db (driver_claim db now oid did))
    unfold driver_claim
    split
    · exact h
    next h0 =>
      split
      · exact h
      next hact =>
        split
        · exact h
        next order hfind =>
          split
          · exact startedRows_claim oid did now h
          · exact h
  | updateStatus oid did ns =>
    show DriverImpliesStarted (stateOf db (driver_update_status db now oid did ns))
    unfold driver_update_status
    split
    · exact h
    next h0 =>
      split
      · exact h
      next order hfind =>
        split
        · exact h
        next hdel =>
          split
          · exact h
          next hmem =>
            split
            · exact startedRows_requested oid now h
            next hreq =>
              apply startedRows_status oid now h
              have hm := not_not.mp hmem
              simp only [allowed_statuses, List.mem_cons,
                List.mem_singleton, List.not_mem_nil, or_false] at hm
              rcases hm with hm | hm | hm | hm
              · exact absurd hm hreq
              · exact Or.inl hm
              · exact Or.inr (Or.inl hm)
              · exact Or.inr (Or.inr hm)

theorem uniqueIds_runOp (db : DB) (now : Nat) (op : Op)
    (h : UniqueRequestIds db) : UniqueRequestIds (runOp db now op) := by
  cases op with
  | createRequest l hid d c n =>
    show UniqueRequestIds (stateOf db (request_transport db now l hid d c n))
    unfold request_transport
    split
    · exact h
    next listing heq =>
      split
      · exact h
      next hA =>
        split
        · exact h
        next hh =>
          split
          · exact h
          next hosp heq2 =>
            split
            · exact h
            next hde => exact nodupIds_append_fresh h rfl
  | createEmergencyRequest hsp o og d c n =>
    exact nodupIds_append_fresh h rfl
  | claimOrder oid did =>
    show UniqueRequestIds (stateOf db (driver_claim db now oid did))
    unfold driver_claim
    split
    · exact h
    next h0 =>
      split
      · exact h
      next hact =>
        split
        · exact h
        next order hfind =>
          split
          · show ((sqlUpdateRequests db.transport_requests oid
              (claimUpd did now)).map (fun tr => tr.id)).Nodup
            rw [sqlUpdateRequests_map_id _ _ (claimUpd did now) (fun tr => rfl)]
            exact h
          · exact h
  | updateStatus oid did ns =>
    show UniqueRequestIds (stateOf db (driver_update_status db now oid did ns))
    unfold driver_update_status
    split
    · exact h
    next h0 =>
      split
      · exact h
      next order hfind =>
        split
        · exact h
        next hdel =>
          split
          · exact h
          next hmem =>
            split
            · show ((sqlUpdateRequests db.transport_requests oid
                (revertUpd ns now)).map (fun tr => tr.id)).Nodup
              rw [sqlUpdateRequests_map_id _ _ (revertUpd ns now) (fun tr => rfl)]
              exact h
            next hreq =>
              show ((sqlUpdateRequests db.transport_requests oid
                (statusUpd ns now)).map (fun tr => tr.id)).Nodup
              rw [sqlUpdateRequests_map_id _ _ (statusUpd ns now) (fun tr => rfl)]
              exact h

theorem amoa_runOp (db : DB) (now : Nat) (op : Op)
    (h1 : UniqueRequestIds db) (h2 : DriverImpliesStarted db)
    (h3 : AtMostOneActive db) : AtMostOneActive (runOp db now op) := by
  cases op with
  | createRequest l hid d c n =>
    show AtMostOneActive (stateOf db (request_transport db now l hid d c n))
    unfold request_transport
    split
    · exact h3
    next listing heq =>
      split
      · exact h3
      next hA =>
        split
        · exact h3
        next hh =>
          split
          · exact h3
          next hosp heq2 =>
            split
            · exact h3
            next hde => exact fun e => activeCount_append_le h3 rfl e
  | createEmergencyRequest hsp o og d c n =>
    exact fun e => activeCount_append_le h3 rfl e
  | claimOrder oid did =>
    show AtMostOneActive (stateOf db (driver_claim db now oid did))
    unfold driver_claim
    split
    · exact h3
    next h0 =>
      split
      · exact h3
      next hact =>
        split
        · exact h3
        next order hfind =>
          split
          · have hfalse : driver_has_active_order db did = false := by
              revert hact; cases driver_has_active_order db did <;> simp
            have hno : db.transport_requests.countP (isActiveFor did) = 0 :=
              (driver_has_active_order_eq_false db did).mp hfalse
            exact fun e => activeCount_claim_le oid did now h1 h3 hno e
          · exact h3
  | updateStatus oid did ns =>
    show AtMostOneActive (stateOf db (driver_update_status db now oid did ns))
    unfold driver_update_status
    split
    · exact h3
    next h0 =>
      split
      · exact h3
      next order hfind =>
        split
        · exact h3
        next hdel =>
          split
          · exact h3
          next hmem =>
            split
            · exact fun e => activeCount_requested_le oid now h3 e
            next hreq =>
              exact fun e => activeCount_status_le oid now h1 h2 h3 hfind hdel e

theorem inv_runOp (db : DB) (now : Nat) (op : Op) (h : Inv db) :
    Inv (runOp db now op) :=
  ⟨uniqueIds_runOp db now op h.1,
   startedRows_runOp db now op h.2.1,
   amoa_runOp db now op h.1 h.2.1 h.2.2⟩

theorem inv_runOps (db : DB) (ops : List (Nat × Op)) (h : Inv db) :
    Inv (runOps db ops) := by
  induction ops generalizing db with
  | nil => exact h
  | cons p rest ih =>
    obtain ⟨now, op⟩ := p
    exact ih (runOp db now op) (inv_runOp db now op h)

theorem startedRows_runOps (db : DB) (ops : List (Nat × Op))
    (h : DriverImpliesStarted db) : DriverImpliesStarted (runOps db ops) := by
  induction ops generalizing db with
  | nil => exact h
  | cons p rest ih =>
    obtain ⟨now, op⟩ := p
    exact ih (runOp db now op) (startedRows_runOp db now op h)

/-! ### Pointwise descriptions of the SQL updates, and a helper for checking
AtMostOneActive on concrete stores -/

theorem sqlUpdateRequests_get (rows : List TransportRequest) (oid : Nat)
    (f : TransportRequest → TransportRequest) (i : Nat)
    (h : i < rows.length) (h2 : i < (sqlUpdateRequests rows oid f).length) :
    (sqlUpdateRequests rows oid f).get ⟨i, h2⟩ =
      (if (rows.get ⟨i, h⟩).id = oid then f (rows.get ⟨i, h⟩)
       else rows.get ⟨i, h⟩) := by
  unfold sqlUpdateRequests at h2 ⊢
  simp [List.get_eq_getElem, List.getElem_map]

theorem sqlUpdateListings_get (rows : List OrganListing) (lid : Nat)
    (f : OrganListing → OrganListing) (i : Nat)
    (h : i < rows.length) (h2 : i < (sqlUpdateListings rows lid f).length) :
    (sqlUpdateListings rows lid f).get ⟨i, h2⟩ =
      (if (rows.get ⟨i, h⟩).id = lid then f (rows.get ⟨i, h⟩)
       else rows.get ⟨i, h⟩) := by
  unfold sqlUpdateListings at h2 ⊢
  simp [List.get_eq_getElem, List.getElem_map]

theorem sqlUpdateListings_length (rows : List OrganListing) (lid : Nat)
    (f : OrganListing → OrganListing) :
    (sqlUpdateListings rows lid f).length = rows.length := by
  unfold sqlUpdateListings; exact List.length_map _ _

theorem atMostOneActive_of_mem (db : DB)
    (h : ∀ d, some d ∈ db.transport_requests.map (fun tr => tr.driver_id) →
      activeCount db d ≤ 1) :
    AtMostOneActive db := by
  intro e
  by_cases he : some e ∈ db.transport_requests.map (fun tr => tr.driver_id)
  · exact h e he
  · have hz : activeCount db e = 0 := by
      unfold activeCount
      rw [List.countP_eq_zero]
      intro tr htr hp
      rcases isActiveFor_iff.mp hp with ⟨hdr, _⟩
      exact he (List.mem_map.mpr ⟨tr, htr, hdr⟩)
    omega

/-! ### The claims -/

/-- Claim C2, as amended: from a store whose request ids are distinct (the
primary-key property) and where every row carrying a driver is Assigned,
En-route or Delivered, every sequence of CreateRequest,
CreateEmergencyRequest, ClaimOrder and UpdateStatus operations keeps every
driver at no more than one active (Assigned or En-route) order. -/
theorem claim_C2 (db : DB) (ops : List (Nat × Op)) (d : Nat)
    (h1 : UniqueRequestIds db) (h2 : DriverImpliesStarted db)
    (h3 : AtMostOneActive db) : activeCount (runOps db ops) d ≤ 1 :=
  (inv_runOps db ops ⟨h1, h2, h3⟩).2.2 d

/-- Witness for claim C2 at a concrete input: starting from the empty store
and claiming one freshly unavailable order id. -/
theorem claim_C2_witness :
    activeCount (runOps dbEmpty [(1, Op.claimOrder 1 1)]) 1 ≤ 1 :=
  claim_C2 dbEmpty [(1, Op.claimOrder 1 1)] 1
    (by unfold UniqueRequestIds dbEmpty; decide)
    (by unfold DriverImpliesStarted StartedRows dbEmpty; decide)
    (atMostOneActive_of_mem dbEmpty (by intro d hd; simp [dbEmpty] at hd))

/-- Counterexample to claim C2 as stated: two stores in which every driver
holds at most one active order, from which a single UpdateStatus leaves a
driver with two.  In the first store a Requested row still carries driver 7;
in the second two rows share id 1, so one UPDATE touches both. -/
theorem claim_C2_counterexample :
    (AtMostOneActive dbC2a ∧
      activeCount (runOps dbC2a [(3, Op.updateStatus 1 9 "En-route")]) 7 = 2) ∧
    (AtMostOneActive dbC2b ∧
      activeCount (runOps dbC2b [(3, Op.updateStatus 1 9 "Assigned")]) 5 = 2) := by
  refine ⟨⟨?_, by decide⟩, ?_, by decide⟩
  · apply atMostOneActive_of_mem
    intro d hd
    simp [dbC2a, reqRequested] at hd
    subst hd
    decide
  · apply atMostOneActive_of_mem
    intro d hd
    simp [dbC2b, reqRequested] at hd
    subst hd
    decide

/-- Claim C3, as amended: for every transport request, a non-null driver_id
implies status Assigned, En-route or Delivered (equivalently, every Requested
row has a null driver_id), and this implication is preserved by every
operation sequence. -/
theorem claim_C3 (db : DB) (ops : List (Nat × Op))
    (h : DriverImpliesStarted db) : DriverImpliesStarted (runOps db ops) :=
  startedRows_runOps db ops h

/-- Witness for claim C3 at a concrete input: one Requested unassigned order
being claimed. -/
theorem claim_C3_witness :
    DriverImpliesStarted (runOps dbReq [(2, Op.claimOrder 1 4)]) :=
  claim_C3 dbReq [(2, Op.claimOrder 1 4)]
    (by unfold DriverImpliesStarted StartedRows dbReq reqRequested; decide)

/-- Counterexample to claim C3 as stated: the biconditional (driver_id
non-null iff status Assigned or En-route) holds in dbEnRoute and in dbReq,
yet one UpdateStatus breaks it in each direction: delivering the En-route
order keeps its driver_id, and setting a Requested unassigned order straight
to Assigned leaves driver_id null. -/
theorem claim_C3_counterexample :
    (DriverIffActive dbEnRoute ∧
      ¬ DriverIffActive (runOps dbEnRoute [(5, Op.updateStatus 1 3 "Delivered")])) ∧
    (DriverIffActive dbReq ∧
      ¬ DriverIffActive (runOps dbReq [(5, Op.updateStatus 1 3 "Assigned")])) := by
  refine ⟨⟨?_, ?_⟩, ?_, ?_⟩ <;> unfold DriverIffActive <;> decide

/-- Claim C6: against both the spec and the comment in driver_update_status,
the code checks no adjacency between the current and the requested status:
it moves a Requested order directly to Delivered, and reverts an En-route
order to Requested. -/
theorem claim_C6_bug :
    ((runOps dbReq [(5, Op.updateStatus 1 3 "Delivered")]).transport_requests.map
        (fun tr => tr.status) = ["Delivered"] ∧
      dbReq.transport_requests.map (fun tr => tr.status) = ["Requested"]) ∧
    ((runOps dbEnRoute [(5, Op.updateStatus 1 3 "Requested")]).transport_requests.map
        (fun tr => tr.status) = ["Requested"] ∧
      dbEnRoute.transport_requests.map (fun tr => tr.status) = ["En-route"]) := by
  exact ⟨⟨by decide, by decide⟩, by decide, by decide⟩

/-- Claim C4: UpdateStatus on a Delivered order fails with the StateError
text "Delivered orders cannot be modified" and HTTP 400 for every present
driver and every present new_status, and leaves the store untouched. -/
theorem claim_C4 (db : DB) (now order_id driver_id : Nat) (new_status : String)
    (o : TransportRequest) (hd : driver_id ≠ 0) (hs : new_status ≠ "")
    (hfind : db.transport_requests.find? (fun tr => tr.id == order_id) = some o)
    (hdel : o.status = "Delivered") :
    driver_update_status db now order_id driver_id new_status =
      .error ⟨"Delivered orders cannot be modified", 400⟩ ∧
    runOp db now (Op.updateStatus order_id driver_id new_status) = db := by
  have hres : driver_update_status db now order_id driver_id new_status =
      .error ⟨"Delivered orders cannot be modified", 400⟩ := by
    unfold driver_update_status
    simp only [hfind]
    rw [if_neg (not_or.mpr ⟨hd, hs⟩), if_pos hdel]
  refine ⟨hres, ?_⟩
  show stateOf db (driver_update_status db now order_id driver_id new_status) = db
  rw [hres]
  rfl

/-- Witness for claim C4 at a concrete input. -/
theorem claim_C4_witness :
    driver_update_status dbDelivered 9 1 2 "En-route" =
      .error ⟨"Delivered orders cannot be modified", 400⟩ ∧
    runOp dbDelivered 9 (Op.updateStatus 1 2 "En-route") = dbDelivered :=
  claim_C4 dbDelivered 9 1 2 "En-route" reqDelivered4 (by decide) (by decide)
    (by rfl) (by rfl)

/-- Claim C5: on a present, non-Delivered order and an allowed new_status,
UpdateStatus succeeds; the matched row gets status new_status and
updated_at now, its driver_id is cleared exactly when new_status is
Requested and preserved otherwise, every other field and every other row is
unchanged, and the listings and hospitals tables are untouched. -/
theorem claim_C5 (db : DB) (now order_id driver_id : Nat) (new_status : String)
    (o : TransportRequest) (hd : driver_id ≠ 0)
    (hfind : db.transport_requests.find? (fun tr => tr.id == order_id) = some o)
    (hdel : o.status ≠ "Delivered") (hns : new_status ∈ allowed_statuses) :
    ∃ db2, driver_update_status db now order_id driver_id new_status =
        .ok (db2, driver_id) ∧
      db2.hospitals = db.hospitals ∧ db2.organ_listings = db.organ_listings ∧
      db2.transport_requests.length = db.transport_requests.length ∧
      ∀ i (h : i < db.transport_requests.length)
        (h2 : i < db2.transport_requests.length),
        db2.transport_requests.get ⟨i, h2⟩ =
          (if (db.transport_requests.get ⟨i, h⟩).id = order_id then { db.transport_requests.get ⟨i, h⟩ with status := new_status, driver_id := (if new_status = "Requested" then none else (db.transport_requests.get ⟨i, h⟩).driver_id), updated_at := now } else db.transport_requests.get ⟨i, h⟩) := by
  have hs : new_status ≠ "" := by
    intro he
    rw [he] at hns
    simp [allowed_statuses] at hns
  have hne : ¬ new_status ∉ allowed_statuses := not_not.mpr hns
  by_cases hreq : new_status = "Requested"
  · refine ⟨{ db with transport_requests := sqlUpdateRequests db.transport_requests order_id (revertUpd new_status now) }, ?_, rfl, rfl, sqlUpdateRequests_length _ _ _, ?_⟩
    · unfold driver_update_status
      simp only [hfind]
      rw [if_neg (not_or.mpr ⟨hd, hs⟩), if_neg hdel, if_neg hne, if_pos hreq]
    · intro i h h2
      rw [sqlUpdateRequests_get db.transport_requests order_id _ i h h2]
      by_cases hid : (db.transport_requests.get ⟨i, h⟩).id = order_id
      · rw [if_pos hid, if_pos hid, if_pos hreq]
        rfl
      · rw [if_neg hid, if_neg hid]
  · refine ⟨{ db with transport_requests := sqlUpdateRequests db.transport_requests order_id (statusUpd new_status now) }, ?_, rfl, rfl, sqlUpdateRequests_length _ _ _, ?_⟩
    · unfold driver_update_status
      simp only [hfind]
      rw [if_neg (not_or.mpr ⟨hd, hs⟩), if_neg hdel, if_neg hne, if_neg hreq]
    · intro i h h2
      rw [sqlUpdateRequests_get db.transport_requests order_id _ i h h2]
      by_cases hid : (db.transport_requests.get ⟨i, h⟩).id = order_id
      · rw [if_pos hid, if_pos hid, if_neg hreq]
        rfl
      · rw [if_neg hid, if_neg hid]

/-- Witness for claim C5 at a concrete input: moving the Requested order of
dbReq to Assigned. -/
theorem claim_C5_witness :
    ∃ db2, driver_update_status dbReq 9 1 4 "Assigned" = .ok (db2, 4) ∧
      db2.hospitals = dbReq.hospitals ∧ db2.organ_listings = dbReq.organ_listings ∧
      db2.transport_requests.length = dbReq.transport_requests.length ∧
      ∀ i (h : i < dbReq.transport_requests.length)
        (h2 : i < db2.transport_requests.length),
        db2.transport_requests.get ⟨i, h2⟩ =
          (if (dbReq.transport_requests.get ⟨i, h⟩).id = 1 then { dbReq.transport_requests.get ⟨i, h⟩ with status := "Assigned", driver_id := (if ("Assigned" : String) = "Requested" then none else (dbReq.transport_requests.get ⟨i, h⟩).driver_id), updated_at := 9 } else dbReq.transport_requests.get ⟨i, h⟩) :=
  claim_C5 dbReq 9 1 4 "Assigned" reqRequested (by decide) (by rfl) (by decide)
    (by decide)

/-- Claim C10: the driver_id sent to UpdateStatus is never compared against
the order and never written to it: for any two present driver ids the
resulting store and the whole store-valued outcome coincide, and on success
the driver_id only flows into the redirect target. -/
theorem claim_C10 (db : DB) (now order_id d1 d2 : Nat) (new_status : String)
    (h1 : d1 ≠ 0) (h2 : d2 ≠ 0) :
    stateOf db (driver_update_status db now order_id d1 new_status) =
      stateOf db (driver_update_status db now order_id d2 new_status) ∧
    Except.map Prod.fst (driver_update_status db now order_id d1 new_status) =
      Except.map Prod.fst (driver_update_status db now order_id d2 new_status) ∧
    (∀ db2 r, driver_update_status db now order_id d1 new_status = .ok (db2, r) →
      r = d1) := by
  unfold driver_update_status
  by_cases hs : new_status = ""
  · rw [if_pos (Or.inr hs), if_pos (Or.inr hs)]
    exact ⟨rfl, rfl, fun db2 r hok => Except.noConfusion hok⟩
  · rw [if_neg (not_or.mpr ⟨h1, hs⟩), if_neg (not_or.mpr ⟨h2, hs⟩)]
    cases hfind : db.transport_requests.find? (fun tr => tr.id == order_id) with
    | none => exact ⟨rfl, rfl, fun db2 r hok => Except.noConfusion hok⟩
    | some order =>
      by_cases hdel : order.status = "Delivered"
      · simp only [if_pos hdel]
        exact ⟨by trivial, by trivial, fun db2 r hok => Except.noConfusion hok⟩
      · simp only [if_neg hdel]
        by_cases hmem : new_status ∉ allowed_statuses
        · simp only [if_pos hmem]
          exact ⟨by trivial, by trivial, fun db2 r hok => Except.noConfusion hok⟩
        · simp only [if_neg hmem]
          by_cases hreq : new_status = "Requested"
          · simp only [if_pos hreq]
            refine ⟨by trivial, by trivial, fun db2 r hok => ?_⟩
            injection hok with hp
            injection hp with hdb hr
            exact hr.symm
          · simp only [if_neg hreq]
            refine ⟨by trivial, by trivial, fun db2 r hok => ?_⟩
            injection hok with hp
            injection hp with hdb hr
            exact hr.symm

/-- Witness for claim C10 at a concrete input: drivers 1 and 2 both deliver
order 1 of dbEnRoute (which driver 3 holds) and produce the same store. -/
theorem claim_C10_witness :
    stateOf dbEnRoute (driver_update_status dbEnRoute 5 1 1 "Delivered") =
      stateOf dbEnRoute (driver_update_status dbEnRoute 5 1 2 "Delivered") :=
  (claim_C10 dbEnRoute 5 1 1 2 "Delivered" (by decide) (by decide)).1

/-- The two failure responses of ClaimOrder are distinct. -/
theorem conflict_ne_state :
    (⟨"Driver already has an active order", 400⟩ : ErrResp) ≠
      ⟨"Order is no longer available", 400⟩ := by decide

/-- Claim C1: ClaimOrder fails with the ConflictError text exactly when the
driver already holds an Assigned or En-route order; otherwise it fails with
the StateError text exactly when the target order is absent or not in status
Requested; otherwise it succeeds, writing driver_id, status Assigned and
updated_at now onto the order. -/
theorem claim_C1 (db : DB) (now order_id driver_id : Nat)
    (hd : driver_id ≠ 0) :
    (driver_claim db now order_id driver_id =
        .error ⟨"Driver already has an active order", 400⟩ ↔
      ∃ tr ∈ db.transport_requests, tr.driver_id = some driver_id ∧
        (tr.status = "Assigned" ∨ tr.status = "En-route")) ∧
    (driver_claim db now order_id driver_id =
        .error ⟨"Order is no longer available", 400⟩ ↔
      ((¬ ∃ tr ∈ db.transport_requests, tr.driver_id = some driver_id ∧
          (tr.status = "Assigned" ∨ tr.status = "En-route")) ∧
        ∀ o, db.transport_requests.find? (fun tr => tr.id == order_id) = some o →
          o.status ≠ "Requested")) ∧
    (∀ o, db.transport_requests.find? (fun tr => tr.id == order_id) = some o →
      o.status = "Requested" →
      (¬ ∃ tr ∈ db.transport_requests, tr.driver_id = some driver_id ∧
        (tr.status = "Assigned" ∨ tr.status = "En-route")) →
      ∃ db2, driver_claim db now order_id driver_id = .ok (db2, driver_id) ∧
        db2.hospitals = db.hospitals ∧ db2.organ_listings = db.organ_listings ∧
        db2.transport_requests.length = db.transport_requests.length ∧
        ∀ i (h : i < db.transport_requests.length)
          (h2 : i < db2.transport_requests.length),
          db2.transport_requests.get ⟨i, h2⟩ =
            (if (db.transport_requests.get ⟨i, h⟩).id = order_id then { db.transport_requests.get ⟨i, h⟩ with driver_id := some driver_id, status := "Assigned", updated_at := now } else db.transport_requests.get ⟨i, h⟩)) := by
  have hAct := driver_has_active_order_iff db driver_id
  by_cases hact : driver_has_active_order db driver_id = true
  · have hres : driver_claim db now order_id driver_id =
        .error ⟨"Driver already has an active order", 400⟩ := by
      unfold driver_claim
      rw [if_neg hd, if_pos hact]
    refine ⟨⟨fun _ => hAct.mp hact, fun _ => hres⟩, ?_, ?_⟩
    · constructor
      · intro hcon
        rw [hres] at hcon
        injection hcon with he
        exact absurd he conflict_ne_state
      · rintro ⟨hno, -⟩
        exact absurd (hAct.mp hact) hno
    · intro o hfind hreq hno
      exact absurd (hAct.mp hact) hno
  · have hnoex : ¬ ∃ tr ∈ db.transport_requests,
        tr.driver_id = some driver_id ∧
        (tr.status = "Assigned" ∨ tr.status = "En-route") :=
      fun hex => hact (hAct.mpr hex)
    cases hfind : db.transport_requests.find? (fun tr => tr.id == order_id) with
    | none =>
      have hres : driver_claim db now order_id driver_id =
          .error ⟨"Order is no longer available", 400⟩ := by
        unfold driver_claim
        simp only [hfind]
        rw [if_neg hd, if_neg hact]
      refine ⟨?_, ?_, ?_⟩
      · constructor
        · intro hcon
          rw [hres] at hcon
          injection hcon with he
          exact absurd he.symm conflict_ne_state
        · intro hex
          exact absurd hex hnoex
      · refine ⟨fun _ => ⟨hnoex, ?_⟩, fun _ => hres⟩
        intro o ho
        exact Option.noConfusion ho
      · intro o ho
        exact Option.noConfusion ho
    | some order =>
      by_cases hreq : order.status = "Requested"
      · have hres : driver_claim db now order_id driver_id =
            .ok ({ db with transport_requests := sqlUpdateRequests db.transport_requests order_id (claimUpd driver_id now) }, driver_id) := by
          unfold driver_claim
          simp only [hfind]
          rw [if_neg hd, if_neg hact, if_pos hreq]
        refine ⟨?_, ?_, ?_⟩
        · constructor
          · intro hcon
            rw [hres] at hcon
            exact Except.noConfusion hcon
          · intro hex
            exact absurd hex hnoex
        · constructor
          · intro hcon
            rw [hres] at hcon
            exact Except.noConfusion hcon
          · rintro ⟨-, hall⟩
            exact absurd hreq (hall order rfl)
        · intro o ho hro hno
          refine ⟨_, hres, rfl, rfl, sqlUpdateRequests_length _ _ _, ?_⟩
          intro i h h2
          rw [sqlUpdateRequests_get db.transport_requests order_id _ i h h2]
          by_cases hid : (db.transport_requests.get ⟨i, h⟩).id = order_id
          · rw [if_pos hid, if_pos hid]
            rfl
          · rw [if_neg hid, if_neg hid]
      · have hres : driver_claim db now order_id driver_id =
            .error ⟨"Order is no longer available", 400⟩ := by
          unfold driver_claim
          simp only [hfind]
          rw [if_neg hd, if_neg hact, if_neg hreq]
        refine ⟨?_, ?_, ?_⟩
        · constructor
          · intro hcon
            rw [hres] at hcon
            injection hcon with he
            exact absurd he.symm conflict_ne_state
          · intro hex
            exact absurd hex hnoex
        · refine ⟨fun _ => ⟨hnoex, ?_⟩, fun _ => hres⟩
          intro o ho
          injection ho with he
          rw [← he]
          exact hreq
        · intro o ho hro hno
          injection ho with he
          rw [← he] at hro
          exact absurd hro hreq

/-- Witness for claim C1 at a concrete input: driver 7 of dbC2a already holds
an active order, so claiming order 1 reports the conflict. -/
theorem claim_C1_witness :
    driver_claim dbC2a 9 1 7 =
        .error ⟨"Driver already has an active order", 400⟩ ↔
      ∃ tr ∈ dbC2a.transport_requests, tr.driver_id = some 7 ∧
        (tr.status = "Assigned" ∨ tr.status = "En-route") :=
  (claim_C1 dbC2a 9 1 7 (by decide)).1

/-- Claim C7: with an existing Available listing, an existing hospital and
non-empty destination and contact phone, CreateRequest appends one transport
request carrying status Requested, a null driver_id, the priority of the
listing and the computed origin string, and flips the listing to Unavailable;
with the listing Unavailable it fails with HTTP 400 and writes nothing. -/
theorem claim_C7 (db : DB) (now listing_id hid : Nat)
    (destination contact_phone notes : String) (L : OrganListing)
    (hL : db.organ_listings.find? (fun l => l.id == listing_id) = some L) :
    (L.availability_status = "Available" →
      ∀ H, db.hospitals.find? (fun h => h.id == hid) = some H →
      destination.trim ≠ "" → contact_phone.trim ≠ "" →
      ∃ db2, request_transport db now listing_id (some hid) destination
          contact_phone notes = .ok (db2, maxRequestId db.transport_requests + 1) ∧
        db2.hospitals = db.hospitals ∧
        db2.transport_requests = db.transport_requests ++ [{ id := maxRequestId db.transport_requests + 1, listing_id := some L.id, hospital := H.name, organ_type := L.organ_type, origin := L.hospital_name ++ " (" ++ L.city ++ ", " ++ L.state ++ ")", destination := destination.trim, contact_phone := contact_phone.trim, notes := notes.trim, priority_status := L.priority_status, status := "Requested", driver_id := none, created_at := now, updated_at := now }] ∧
        db2.organ_listings.length = db.organ_listings.length ∧
        ∀ i (h : i < db.organ_listings.length)
          (h2 : i < db2.organ_listings.length),
          db2.organ_listings.get ⟨i, h2⟩ =
            (if (db.organ_listings.get ⟨i, h⟩).id = L.id then { db.organ_listings.get ⟨i, h⟩ with availability_status := "Unavailable" } else db.organ_listings.get ⟨i, h⟩)) ∧
    (L.availability_status = "Unavailable" →
      (∃ e, request_transport db now listing_id (some hid) destination
          contact_phone notes = .error e ∧ e.http = 400) ∧
      runOp db now (Op.createRequest listing_id (some hid) destination
        contact_phone notes) = db) := by
  constructor
  · intro hA H hH hdest hphone
    have hres : request_transport db now listing_id (some hid) destination
        contact_phone notes =
        .ok ({ db with transport_requests := db.transport_requests ++ [{ id := maxRequestId db.transport_requests + 1, listing_id := some L.id, hospital := H.name, organ_type := L.organ_type, origin := L.hospital_name ++ " (" ++ L.city ++ ", " ++ L.state ++ ")", destination := destination.trim, contact_phone := contact_phone.trim, notes := notes.trim, priority_status := L.priority_status, status := "Requested", driver_id := none, created_at := now, updated_at := now }], organ_listings := sqlUpdateListings db.organ_listings L.id (fun l => { l with availability_status := "Unavailable" }) }, maxRequestId db.transport_requests + 1) := by
      unfold request_transport
      simp only [hL, hH]
      rw [if_neg (not_not_intro hA), if_neg (not_or.mpr ⟨hdest, hphone⟩)]
    refine ⟨_, hres, rfl, rfl, sqlUpdateListings_length _ _ _, ?_⟩
    intro i h h2
    exact sqlUpdateListings_get db.organ_listings L.id _ i h h2
  · intro hU
    have hres : request_transport db now listing_id (some hid) destination
        contact_phone notes = .error ⟨"Listing is unavailable", 400⟩ := by
      unfold request_transport
      simp only [hL]
      rw [if_pos (by rw [hU]; decide)]
    refine ⟨⟨_, hres, rfl⟩, ?_⟩
    show stateOf db (request_transport db now listing_id (some hid) destination
      contact_phone notes) = db
    rw [hres]
    rfl

/-- Witness for claim C7 at a concrete input: the Unavailable listing of dbLU
rejects a new transport request and the store is unchanged. -/
theorem claim_C7_witness :
    (∃ e, request_transport dbLU 4 2 (some 2) "Dest" "411" "" = .error e ∧
      e.http = 400) ∧
    runOp dbLU 4 (Op.createRequest 2 (some 2) "Dest" "411" "") = dbLU :=
  (claim_C7 dbLU 4 2 2 "Dest" "411" "" listingUnavail (by rfl)).2 (by rfl)

/-- Claim C8, as amended: a listing_id matching no listing fails with
"Listing not found" and HTTP 404, but a hospital_id matching no hospital
fails with "Selected hospital not found" and HTTP 400, not 404. -/
theorem claim_C8 (db : DB) (now listing_id : Nat) (hid : Option Nat)
    (destination contact_phone notes : String) :
    (db.organ_listings.find? (fun l => l.id == listing_id) = none →
      request_transport db now listing_id hid destination contact_phone notes =
        .error ⟨"Listing not found", 404⟩) ∧
    (∀ L h2, db.organ_listings.find? (fun l => l.id == listing_id) = some L →
      L.availability_status = "Available" → hid = some h2 →
      db.hospitals.find? (fun x => x.id == h2) = none →
      request_transport db now listing_id hid destination contact_phone notes =
        .error ⟨"Selected hospital not found", 400⟩) := by
  constructor
  · intro hnone
    unfold request_transport
    simp only [hnone]
  · intro L h2 hL hA hhid hnone
    unfold request_transport
    subst hhid
    simp only [hL, hnone]
    rw [if_neg (not_not_intro hA)]

/-- Counterexample to claim C8 as stated: with an existing Available listing
and a hospital_id matching no hospital, CreateRequest answers HTTP 400, not
404. -/
theorem claim_C8_counterexample :
    request_transport dbListingOnly 0 1 (some 7) "x" "y" "" =
      .error ⟨"Selected hospital not found", 400⟩ ∧
    ¬ ∃ e, request_transport dbListingOnly 0 1 (some 7) "x" "y" "" = .error e ∧
      e.http = 404 := by
  refine ⟨by rfl, ?_⟩
  rintro ⟨e, he, h404⟩
  rw [show request_transport dbListingOnly 0 1 (some 7) "x" "y" "" = .error (⟨"Selected hospital not found", 400⟩ : ErrResp) from rfl] at he
  injection he with he2
  rw [← he2] at h404
  exact absurd h404 (by decide)

/-- Claim C9: the catalog view is sorted by catalogLe (rank Emergency 1,
Critical 2, Urgent 3, else 4, then created_at newest first) and is a
permutation of the filtered listings, while the driver available-orders view
is sorted by availLe (rank Emergency 1, Urgent 2, Critical 3, else 4, then
created_at oldest first) and holds exactly the Requested, unassigned
requests; the two rank functions take the claimed values. -/
theorem claim_C9 (db : DB) (q typ availability : String) :
    List.Sorted catalogLe (organ_listings_view db q typ availability) ∧
    (organ_listings_view db q typ availability).Perm
      (db.organ_listings.filter
        (listingMatches (q.trim.toLower) typ availability)) ∧
    List.Sorted availLe (available_orders db) ∧
    (∀ tr, tr ∈ available_orders db ↔
      (tr ∈ db.transport_requests ∧ tr.status = "Requested" ∧
        tr.driver_id = none)) ∧
    catalogRank "Emergency" = 1 ∧ catalogRank "Critical" = 2 ∧
    catalogRank "Urgent" = 3 ∧ driverRank "Emergency" = 1 ∧
    driverRank "Urgent" = 2 ∧ driverRank "Critical" = 3 ∧
    (∀ p, p ≠ "Emergency" → p ≠ "Critical" → p ≠ "Urgent" →
      catalogRank p = 4 ∧ driverRank p = 4) := by
  refine ⟨List.sorted_insertionSort _ _, List.perm_insertionSort _ _,
    List.sorted_insertionSort _ _, ?_, by decide, by decide, by decide,
    by decide, by decide, by decide, ?_⟩
  · intro tr
    unfold available_orders
    rw [List.mem_insertionSort, List.mem_filter]
    simp [Option.isNone_iff_eq_none]
  · intro p h1 h2 h3
    unfold catalogRank driverRank
    rw [if_neg h1, if_neg h2, if_neg h3, if_neg h1, if_neg h3, if_neg h2]
    exact ⟨rfl, rfl⟩

end LifeLink
